import Mathlib

/-!
Shallow embedding of `nathansiegfrid/todolist-rs` (`src/main.rs`): a minimal
HTTP CRUD service over a single Postgres `tasks` table.

The database state is a list of rows plus the id sequence counter.  Each SQL
statement issued by the handlers is embedded as a pure function on that state;
each axum handler is embedded as a function from the driver result
(`Except String _`, mirroring Rust `Result`) to an HTTP status and a JSON
envelope, exactly following the `.map` / `.map_err` chains in the source.
-/

namespace Todolist

/-- A row of the `tasks` table, as in `struct TaskRow { id: i32, name: String,
priority: Option<i32> }`.  `name : String` (not `Option`) reflects the NOT NULL
column. -/
structure TaskRow where
  id : Int
  name : String
  priority : Option Int
  deriving Repr, DecidableEq

/-- Modelled from the spec: the `tasks` table schema is not in the repository
(no migrations).  Spec section 6: `id` primary key auto-generated, `name` text
NOT NULL, `priority` nullable integer.  The auto-generated id is a Postgres
sequence, modelled by the `nextId` counter: each insert returns `nextId` and
increments it, and the counter never goes backwards (ids are not reused). -/
structure Db where
  rows : List TaskRow
  nextId : Int
  deriving Repr, DecidableEq

/-- Ordering of rows by ascending `id`, the `ORDER BY id` sort key. -/
def taskLe (a b : TaskRow) : Prop := a.id ≤ b.id

instance : DecidableRel taskLe :=
  fun a b => inferInstanceAs (Decidable (a.id ≤ b.id))

instance : IsTotal TaskRow taskLe :=
  ⟨fun a b => Int.le_total a.id b.id⟩

instance : IsTrans TaskRow taskLe :=
  ⟨fun _ _ _ h h2 => Int.le_trans h h2⟩

/-- Strict ordering of rows by id, used to show the sorted order is unique
when the ids are distinct. -/
def taskLt (a b : TaskRow) : Prop := a.id < b.id

instance : IsAntisymm TaskRow taskLt :=
  ⟨fun _ _ h h2 => absurd h2 (lt_asymm h)⟩

/-- The statement `SELECT * FROM tasks ORDER BY id` issued by `get_tasks`:
all stored rows, sorted by ascending id. -/
def selectTasksOrderById (db : Db) : List TaskRow :=
  List.insertionSort taskLe db.rows

/-- The statement `INSERT INTO tasks (name, priority) VALUES ($1, $2)
RETURNING id` issued by `create_task`: append a row carrying the next
sequence value and return that generated id. -/
def insertTaskReturningId (db : Db) (name : String) (priority : Option Int) :
    Db × Int :=
  ({ rows := db.rows ++ [{ id := db.nextId, name := name, priority := priority }],
     nextId := db.nextId + 1 },
   db.nextId)

/-- The Postgres error text produced when an UPDATE writes NULL into the
NOT NULL `name` column. -/
def notNullViolation : String :=
  "null value in column \x22name\x22 of relation \x22tasks\x22 violates not-null constraint"

/-- Whether the `WHERE id = $1` clause matches at least one stored row. -/
def matchesId (db : Db) (id : Int) : Bool :=
  db.rows.any fun r => r.id == id

/-- The statement `UPDATE tasks SET name = $2, priority = $3 WHERE id = $1`
issued by `update_task`, with `$2 : Option<String>` and `$3 : Option<i32>`.
Modelled from the spec for the constraint part: the schema (`name` text NOT
NULL) is not in the repository, and Postgres rejects the statement when a
matched row would have `name` set to NULL, leaving the state unchanged.
Otherwise every matched row has both columns overwritten with the bound
values (`priority` possibly NULL). -/
def updateTasksWhereId (db : Db) (id : Int) (name : Option String)
    (priority : Option Int) : Except String Db :=
  if matchesId db id && name.isNone then
    .error notNullViolation
  else
    .ok { db with
          rows := db.rows.map fun r =>
            if r.id = id then
              { r with name := name.getD r.name, priority := priority }
            else r }

/-- The statement `DELETE FROM tasks WHERE id = $1` issued by `delete_task`:
remove every row whose id matches (it never fails on its own). -/
def deleteTasksWhereId (db : Db) (id : Int) : Db :=
  { db with rows := db.rows.filter fun r => !(r.id == id) }

/-- The `data` payload of a success envelope: the row list for the list
endpoint, the `CreateTaskRow {id}` record for the create endpoint. -/
inductive RespData where
  | tasks (rows : List TaskRow)
  | created (id : Int)
  deriving Repr, DecidableEq

/-- The JSON envelope built by the `json!` calls: `success` always present,
`data` and `message` present only when emitted (`none` = key absent). -/
structure Envelope where
  success : Bool
  data : Option RespData
  message : Option String
  deriving Repr, DecidableEq

/-- An HTTP response: status code and envelope body. -/
abbrev Response := Nat × Envelope

/-- Handler `get_tasks`, applied to the driver result of its SELECT:
`.map` wraps the rows in `{success:true, data:rows}` with status 200,
`.map_err` yields `{success:false, message:e}` with status 500. -/
def get_tasks (res : Except String (List TaskRow)) : Response :=
  match res with
  | .ok rows => (200, { success := true, data := some (.tasks rows), message := none })
  | .error e => (500, { success := false, data := none, message := some e })

/-- Handler `create_task`, applied to the driver result of its INSERT
(the returned generated id): `.map` wraps `{success:true, data:{id}}`,
`.map_err` yields the 500 failure envelope. -/
def create_task (res : Except String Int) : Response :=
  match res with
  | .ok id => (200, { success := true, data := some (.created id), message := none })
  | .error e => (500, { success := false, data := none, message := some e })

/-- Handler `update_task`, applied to the driver result of its UPDATE: the
affected-row count is discarded (`.map(|_| ...)`), success is bare
`{success:true}` (no `data` key), failure the 500 envelope. -/
def update_task (res : Except String Unit) : Response :=
  match res with
  | .ok _ => (200, { success := true, data := none, message := none })
  | .error e => (500, { success := false, data := none, message := some e })

/-- Handler `delete_task`, applied to the driver result of its DELETE:
same shape as `update_task`. -/
def delete_task (res : Except String Unit) : Response :=
  match res with
  | .ok _ => (200, { success := true, data := none, message := none })
  | .error e => (500, { success := false, data := none, message := some e })

/-- `GET /tasks` end to end against a state, with the driver itself not
failing: run the SELECT and feed its result to the handler. -/
def getTasksHandler (db : Db) : Response :=
  get_tasks (.ok (selectTasksOrderById db))

/-- `POST /tasks` end to end against a state: run the INSERT, feed the
generated id to the handler, return the new state and the response. -/
def createTaskHandler (db : Db) (name : String) (priority : Option Int) :
    Db × Response :=
  let p := insertTaskReturningId db name priority
  (p.1, create_task (.ok p.2))

/-- `PUT /tasks/:id` end to end against a state: run the UPDATE; on a
database error the state is unchanged and the handler sees the error. -/
def updateTaskHandler (db : Db) (id : Int) (name : Option String)
    (priority : Option Int) : Db × Response :=
  match updateTasksWhereId db id name priority with
  | .ok db2 => (db2, update_task (.ok ()))
  | .error e => (db, update_task (.error e))

/-- `DELETE /tasks/:id` end to end against a state. -/
def deleteTaskHandler (db : Db) (id : Int) : Db × Response :=
  (deleteTasksWhereId db id, delete_task (.ok ()))

/-- A request against the task store, for reasoning about request
sequences. -/
inductive Op where
  | create (name : String) (priority : Option Int)
  | update (id : Int) (name : Option String) (priority : Option Int)
  | delete (id : Int)
  deriving Repr, DecidableEq

/-- Whether an operation is a create. -/
def Op.isCreate : Op → Bool
  | .create _ _ => true
  | _ => false

/-- Whether a request sequence contains no create. -/
def noCreates (ops : List Op) : Bool :=
  ops.all fun op => !op.isCreate

/-- Run a sequence of requests against a state, collecting in order the ids
returned by the create requests.  A failed UPDATE leaves the state
unchanged, as in `updateTaskHandler`. -/
def run (db : Db) : List Op → Db × List Int
  | [] => (db, [])
  | .create n p :: ops =>
    let q := insertTaskReturningId db n p
    let rest := run q.1 ops
    (rest.1, q.2 :: rest.2)
  | .update i n p :: ops =>
    match updateTasksWhereId db i n p with
    | .ok db2 => run db2 ops
    | .error _ => run db ops
  | .delete i :: ops => run (deleteTasksWhereId db i) ops

/-- The outside world as seen by `main` during startup: the result of
`dotenvy::dotenv()`, the values of the two environment variables, and the
results of `PgPoolOptions::connect` and `TcpListener::bind`. -/
structure StartupEnv where
  dotenvResult : Except String Unit
  serverAddress : Option String
  databaseUrl : Option String
  connectResult : Except String Unit
  bindResult : Except String Unit
  deriving Repr

/-- What startup does: abort the process with a diagnostic (`expect`
panicking on `Err`/`None`), or reach `axum::serve` with the chosen address
and database URL. -/
inductive StartupOutcome where
  | aborted (msg : String)
  | serving (address : String) (databaseUrl : String)
  deriving Repr, DecidableEq

/-- The startup sequence of `main`, in source order:
`dotenvy::dotenv().expect("Failed to load .env file.")` runs first and is
checked before any environment variable is read; then `SERVER_ADDRESS` with
default `"localhost:8080"`, then `DATABASE_URL` (required), then the pool
connection, then the listener bind. -/
def mainStartup (env : StartupEnv) : StartupOutcome :=
  match env.dotenvResult with
  | .error _ => .aborted "Failed to load .env file."
  | .ok _ =>
    let server_address := env.serverAddress.getD "localhost:8080"
    match env.databaseUrl with
    | none => .aborted "DATABASE_URL must be set."
    | some database_url =>
      match env.connectResult with
      | .error _ => .aborted "Failed to connect to Postgres."
      | .ok _ =>
        match env.bindResult with
        | .error _ => .aborted "Failed to bind to address."
        | .ok _ => .serving server_address database_url

/-- A concrete two-row table state used by the witnesses. -/
def dbEx : Db := ⟨[⟨1, "a", some 5⟩, ⟨2, "b", none⟩], 3⟩

/-- The same rows as `dbEx` inserted in the other order. -/
def dbPermEx : Db := ⟨[⟨2, "b", none⟩, ⟨1, "a", some 5⟩], 3⟩

/-- A concrete startup environment whose `.env` load fails even though both
variables are set. -/
def envFailEx : StartupEnv :=
  ⟨.error "No such file or directory (os error 2)",
   some "0.0.0.0:3000", some "postgres://localhost/todo", .ok (), .ok ()⟩

/-! Helper lemmas shared by the claim theorems. -/

theorem mem_map_selectTasksOrderById {db : Db} {j : Int} :
    j ∈ (selectTasksOrderById db).map TaskRow.id ↔ j ∈ db.rows.map TaskRow.id :=
  ((List.perm_insertionSort taskLe db.rows).map TaskRow.id).mem_iff

theorem updateTasksWhereId_ok_rows {db db2 : Db} {i : Int} {n : Option String}
    {p : Option Int} (h : updateTasksWhereId db i n p = .ok db2) :
    db2.rows = db.rows.map fun r =>
      if r.id = i then { r with name := n.getD r.name, priority := p } else r := by
  unfold updateTasksWhereId at h
  split at h
  · cases h
  · cases h
    rfl

theorem updateTasksWhereId_ok_nextId {db db2 : Db} {i : Int} {n : Option String}
    {p : Option Int} (h : updateTasksWhereId db i n p = .ok db2) :
    db2.nextId = db.nextId := by
  unfold updateTasksWhereId at h
  split at h
  · cases h
  · cases h
    rfl

theorem updateTasksWhereId_ok_ids {db db2 : Db} {i : Int} {n : Option String}
    {p : Option Int} (h : updateTasksWhereId db i n p = .ok db2) :
    db2.rows.map TaskRow.id = db.rows.map TaskRow.id := by
  rw [updateTasksWhereId_ok_rows h, List.map_map]
  refine List.map_congr_left fun r _ => ?_
  by_cases hc : r.id = i <;> simp [hc]

theorem deleteTasksWhereId_id_not_mem (db : Db) (i : Int) :
    i ∉ (deleteTasksWhereId db i).rows.map TaskRow.id := by
  intro h
  rcases List.mem_map.mp h with ⟨r, hr, hid⟩
  rcases List.mem_filter.mp hr with ⟨_, hkeep⟩
  simp only [Bool.not_eq_eq_eq_not, Bool.not_true, beq_eq_false_iff_ne] at hkeep
  exact hkeep hid

theorem run_noCreates_ids_subset {ops : List Op} (hops : noCreates ops = true) :
    ∀ db j, j ∈ (run db ops).1.rows.map TaskRow.id → j ∈ db.rows.map TaskRow.id := by
  induction ops with
  | nil => intro db j hj; simpa [run] using hj
  | cons op ops ih =>
    have hop : op.isCreate = false := by
      have := (List.all_eq_true.mp hops) op (List.mem_cons_self op ops)
      simpa using this
    have hops2 : noCreates ops = true := by
      refine List.all_eq_true.mpr fun x hx => ?_
      exact (List.all_eq_true.mp hops) x (List.mem_cons_of_mem op hx)
    intro db j hj
    cases op with
    | create n p => simp [Op.isCreate] at hop
    | update i n p =>
      rw [run] at hj
      split at hj
      · rename_i db2 hok
        have := ih hops2 db2 j hj
        rwa [updateTasksWhereId_ok_ids hok] at this
      · exact ih hops2 db j hj
    | delete i =>
      rw [run] at hj
      have := ih hops2 (deleteTasksWhereId db i) j hj
      have hsub : List.Sublist ((deleteTasksWhereId db i).rows.map TaskRow.id) (db.rows.map TaskRow.id) :=
        (List.filter_sublist db.rows).map TaskRow.id
      exact hsub.mem this

theorem run_created_lb :
    ∀ (ops : List Op) (db : Db), ∀ j ∈ (run db ops).2, db.nextId ≤ j := by
  intro ops
  induction ops with
  | nil => intro db j hj; simp [run] at hj
  | cons op ops ih =>
    intro db j hj
    cases op with
    | create n p =>
      rw [run] at hj
      rcases List.mem_cons.mp hj with h | h
      · simp [insertTaskReturningId] at h
        omega
      · have := ih _ j h
        simp only [insertTaskReturningId] at this
        omega
    | update i n p =>
      rw [run] at hj
      split at hj
      · rename_i db2 hok
        have := ih db2 j hj
        rwa [updateTasksWhereId_ok_nextId hok] at this
      · exact ih db j hj
    | delete i =>
      rw [run] at hj
      exact ih (deleteTasksWhereId db i) j hj

theorem run_created_pairwise :
    ∀ (ops : List Op) (db : Db), List.Pairwise (· < ·) (run db ops).2 := by
  intro ops
  induction ops with
  | nil => intro db; simp [run]
  | cons op ops ih =>
    intro db
    cases op with
    | create n p =>
      rw [run]
      refine List.Pairwise.cons (fun j hj => ?_) (ih _)
      have := run_created_lb ops (insertTaskReturningId db n p).1 j hj
      simp only [insertTaskReturningId] at this ⊢
      omega
    | update i n p =>
      rw [run]
      split
      · exact ih _
      · exact ih _
    | delete i =>
      rw [run]
      exact ih _

/-! Claim theorems. -/

/-- C5: whenever the single SQL statement of a handler fails with a database
error, the handler (a total function, so the process keeps serving) returns
HTTP 500 with body `{success:false, message:<the driver error text>}`, for
each of the four handlers. -/
theorem handlers_map_db_error_to_500 (e : String) :
    get_tasks (.error e) = (500, ⟨false, none, some e⟩)
    ∧ create_task (.error e) = (500, ⟨false, none, some e⟩)
    ∧ update_task (.error e) = (500, ⟨false, none, some e⟩)
    ∧ delete_task (.error e) = (500, ⟨false, none, some e⟩) :=
  ⟨rfl, rfl, rfl, rfl⟩

/-- C8: for every table state and every path id, stored or not, a DELETE
whose statement executes without a database error returns HTTP 200 with the
bare success envelope. -/
theorem delete_returns_success_regardless (db : Db) (id : Int) :
    (deleteTaskHandler db id).2 = (200, ⟨true, none, none⟩) :=
  rfl

/-- C1 counterexample: on a one-row table, a PUT for the stored id with
`name` absent from the body does not succeed and does not set the stored
name to null: the UPDATE trips the NOT NULL constraint on `name`, the
handler returns HTTP 500, and the row keeps its prior values. -/
theorem update_absent_name_cex :
    (updateTaskHandler ⟨[⟨1, "a", some 5⟩], 2⟩ 1 none (some 2)).2
      = (500, ⟨false, none, some notNullViolation⟩)
    ∧ (updateTaskHandler ⟨[⟨1, "a", some 5⟩], 2⟩ 1 none (some 2)).1
      = ⟨[⟨1, "a", some 5⟩], 2⟩ := by
  decide

/-- C1 amended: PUT is a full replace of both columns with the deserialized
body values — with `name` present the handler returns 200 and every matched
row gets exactly the body's name and priority, so an absent `priority` sets
the stored priority to null rather than preserving it; but an absent `name`
does not set the stored name to null: when the id matches a row the UPDATE
violates the NOT NULL constraint on `name` and the request fails with 500,
leaving the table unchanged. -/
theorem update_full_replace (db : Db) (id : Int) (n : String) (p : Option Int) :
    (updateTaskHandler db id (some n) p).2 = (200, ⟨true, none, none⟩)
    ∧ (updateTaskHandler db id (some n) p).1.rows
        = db.rows.map (fun r => if r.id = id then { r with name := n, priority := p } else r)
    ∧ (matchesId db id = true →
        updateTaskHandler db id none p
          = (db, (500, ⟨false, none, some notNullViolation⟩))) := by
  refine ⟨?_, ?_, ?_⟩
  · simp [updateTaskHandler, updateTasksWhereId, update_task]
  · simp [updateTaskHandler, updateTasksWhereId]
  · intro hmatch
    simp [updateTaskHandler, updateTasksWhereId, hmatch, update_task]

/-- C1 witness: instantiating the amended claim on a one-row table. -/
theorem update_full_replace_witness :
    matchesId ⟨[⟨1, "a", some 5⟩], 2⟩ 1 = true
    ∧ updateTaskHandler ⟨[⟨1, "a", some 5⟩], 2⟩ 1 none none
        = (⟨[⟨1, "a", some 5⟩], 2⟩, (500, ⟨false, none, some notNullViolation⟩)) :=
  ⟨by decide, (update_full_replace ⟨[⟨1, "a", some 5⟩], 2⟩ 1 "z" none).2.2 (by decide)⟩

/-- C4: a PUT whose UPDATE statement executes without a database error
returns HTTP 200 with `{success:true}`; in particular when no stored row
matches the path id the statement always succeeds (no existence check), for
any body. -/
theorem update_returns_success_regardless (db : Db) (id : Int)
    (n : Option String) (p : Option Int) :
    (matchesId db id = false →
      updateTasksWhereId db id n p
        = .ok { db with rows := db.rows.map fun r =>
            if r.id = id then { r with name := n.getD r.name, priority := p } else r })
    ∧ (∀ db2, updateTasksWhereId db id n p = .ok db2 →
        (updateTaskHandler db id n p).2 = (200, ⟨true, none, none⟩)) := by
  constructor
  · intro hmiss
    simp [updateTasksWhereId, hmiss]
  · intro db2 hok
    simp [updateTaskHandler, hok, update_task]

/-- C4 witness: updating the nonexistent id 99 on a concrete table succeeds
with the bare success envelope. -/
theorem update_returns_success_witness :
    matchesId dbEx 99 = false
    ∧ (updateTaskHandler dbEx 99 none none).2 = (200, ⟨true, none, none⟩) :=
  ⟨by decide,
   (update_returns_success_regardless dbEx 99 none none).2 dbEx (by rfl)⟩

/-- C3 counterexample: the success response of the update handler is the
bare `{success:true}` envelope — `success` is true yet neither `data` nor
`message` is present, so it is not the case that exactly one of the two
fields is present in every handler response. -/
theorem envelope_exactly_one_cex :
    (update_task (.ok ())).2.success = true
    ∧ ((update_task (.ok ())).2.data.isSome || (update_task (.ok ())).2.message.isSome)
        = false := by
  decide

/-- C3 amended: in every response of the four handlers, `message` is present
exactly when `success` is false, and `data` is present exactly when
`success` is true for the list and create handlers and never present for
the update and delete handlers (whose success body is bare
`{success:true}`); in particular `data` and `message` are never both
present. -/
theorem envelope_field_invariant (rl : Except String (List TaskRow))
    (rc : Except String Int) (ru rd : Except String Unit) :
    ((get_tasks rl).2.message.isSome = !(get_tasks rl).2.success)
    ∧ ((get_tasks rl).2.data.isSome = (get_tasks rl).2.success)
    ∧ ((create_task rc).2.message.isSome = !(create_task rc).2.success)
    ∧ ((create_task rc).2.data.isSome = (create_task rc).2.success)
    ∧ ((update_task ru).2.message.isSome = !(update_task ru).2.success)
    ∧ ((update_task ru).2.data = none)
    ∧ ((delete_task rd).2.message.isSome = !(delete_task rd).2.success)
    ∧ ((delete_task rd).2.data = none) := by
  cases rl <;> cases rc <;> cases ru <;> cases rd <;>
    simp [get_tasks, create_task, update_task, delete_task]

/-- C9: a successful PUT and any DELETE leave every stored row whose id
differs from the path id untouched: the identical row is still present
afterwards. -/
theorem update_delete_frame (db : Db) (id : Int) (n : Option String)
    (p : Option Int) (db2 : Db) (r : TaskRow)
    (hup : updateTasksWhereId db id n p = .ok db2)
    (hr : r ∈ db.rows) (hne : r.id ≠ id) :
    r ∈ db2.rows ∧ r ∈ (deleteTaskHandler db id).1.rows := by
  constructor
  · rw [updateTasksWhereId_ok_rows hup]
    refine List.mem_map.mpr ⟨r, hr, ?_⟩
    simp [hne]
  · refine List.mem_filter.mpr ⟨hr, ?_⟩
    simp [hne]

/-- C9 witness: updating id 1 on the concrete two-row table keeps row 2
intact, as does deleting id 1. -/
theorem update_delete_frame_witness :
    updateTasksWhereId dbEx 1 (some "c") none = .ok ⟨[⟨1, "c", none⟩, ⟨2, "b", none⟩], 3⟩
    ∧ (⟨2, "b", none⟩ : TaskRow) ∈ dbEx.rows
    ∧ (1 : Int) ≠ 2
    ∧ (⟨2, "b", none⟩ : TaskRow) ∈ (Db.mk [⟨1, "c", none⟩, ⟨2, "b", none⟩] 3).rows
    ∧ (⟨2, "b", none⟩ : TaskRow) ∈ (deleteTaskHandler dbEx 1).1.rows :=
  ⟨by rfl, by decide, by decide,
   (update_delete_frame dbEx 1 (some "c") none ⟨[⟨1, "c", none⟩, ⟨2, "b", none⟩], 3⟩
      ⟨2, "b", none⟩ (by rfl) (by decide) (by decide)).1,
   (update_delete_frame dbEx 1 (some "c") none ⟨[⟨1, "c", none⟩, ⟨2, "b", none⟩], 3⟩
      ⟨2, "b", none⟩ (by rfl) (by decide) (by decide)).2⟩

/-- C10: startup aborts when loading the `.env` file fails, even when both
`SERVER_ADDRESS` and `DATABASE_URL` are set in the process environment,
because `dotenvy::dotenv().expect(..)` runs before either variable is read;
and this failure mode is in addition to the missing `DATABASE_URL`,
failed database connection, and failed listener bind aborts. -/
theorem startup_abort_modes (env : StartupEnv) (e a u : String) :
    (env.dotenvResult = .error e → env.serverAddress = some a →
      env.databaseUrl = some u →
      mainStartup env = .aborted "Failed to load .env file.")
    ∧ (env.dotenvResult = .ok () → env.databaseUrl = none →
      mainStartup env = .aborted "DATABASE_URL must be set.")
    ∧ (env.dotenvResult = .ok () → env.databaseUrl = some u →
      env.connectResult = .error e →
      mainStartup env = .aborted "Failed to connect to Postgres.")
    ∧ (env.dotenvResult = .ok () → env.databaseUrl = some u →
      env.connectResult = .ok () → env.bindResult = .error e →
      mainStartup env = .aborted "Failed to bind to address.") := by
  refine ⟨?_, ?_, ?_, ?_⟩
  · intro h1 _ _
    simp [mainStartup, h1]
  · intro h1 h2
    simp [mainStartup, h1, h2]
  · intro h1 h2 h3
    simp [mainStartup, h1, h2, h3]
  · intro h1 h2 h3 h4
    simp [mainStartup, h1, h2, h3, h4]

/-- C10 witness: a concrete environment with both variables set but a
failing `.env` load aborts with the `.env` diagnostic. -/
theorem startup_abort_witness :
    envFailEx.dotenvResult = .error "No such file or directory (os error 2)"
    ∧ envFailEx.serverAddress = some "0.0.0.0:3000"
    ∧ envFailEx.databaseUrl = some "postgres://localhost/todo"
    ∧ mainStartup envFailEx = .aborted "Failed to load .env file." :=
  ⟨rfl, rfl, rfl,
   (startup_abort_modes envFailEx "No such file or directory (os error 2)"
      "0.0.0.0:3000" "postgres://localhost/todo").1 rfl rfl rfl⟩

theorem sorted_taskLt_of_nodup_ids {l : List TaskRow}
    (hs : List.Sorted taskLe l) (hnd : (l.map TaskRow.id).Nodup) :
    List.Sorted taskLt l := by
  have hne : List.Pairwise (fun a b : TaskRow => a.id ≠ b.id) l :=
    List.pairwise_map.mp hnd
  exact (hs.and hne).imp fun h => lt_of_le_of_ne h.1 h.2

/-- C2: a successful GET returns HTTP 200 with a success envelope wrapping
exactly the stored rows (a permutation of them) sorted by ascending id;
moreover, when the stored ids are distinct, any two states holding the same
rows in any insertion order produce the same list, so the result is
independent of insertion order. -/
theorem get_tasks_sorted (db db2 : Db) :
    getTasksHandler db = (200, ⟨true, some (.tasks (selectTasksOrderById db)), none⟩)
    ∧ List.Sorted taskLe (selectTasksOrderById db)
    ∧ (selectTasksOrderById db).Perm db.rows
    ∧ (db2.rows.Perm db.rows → (db.rows.map TaskRow.id).Nodup →
        selectTasksOrderById db2 = selectTasksOrderById db) := by
  refine ⟨rfl, List.sorted_insertionSort taskLe db.rows,
    List.perm_insertionSort taskLe db.rows, ?_⟩
  intro hperm hnd
  have hp : (selectTasksOrderById db2).Perm (selectTasksOrderById db) :=
    (List.perm_insertionSort taskLe db2.rows).trans
      (hperm.trans (List.perm_insertionSort taskLe db.rows).symm)
  have hnd1 : ((selectTasksOrderById db).map TaskRow.id).Nodup :=
    (((List.perm_insertionSort taskLe db.rows).map TaskRow.id).nodup_iff).mpr hnd
  have hnd2 : ((selectTasksOrderById db2).map TaskRow.id).Nodup :=
    ((hp.map TaskRow.id).nodup_iff).mpr hnd1
  exact List.eq_of_perm_of_sorted hp
    (sorted_taskLt_of_nodup_ids (List.sorted_insertionSort taskLe db2.rows) hnd2)
    (sorted_taskLt_of_nodup_ids (List.sorted_insertionSort taskLe db.rows) hnd1)

/-- C2 witness: the two concrete states holding the same two rows in
opposite orders produce the same sorted list. -/
theorem get_tasks_sorted_witness :
    dbPermEx.rows.Perm dbEx.rows
    ∧ (dbEx.rows.map TaskRow.id).Nodup
    ∧ selectTasksOrderById dbPermEx = selectTasksOrderById dbEx :=
  ⟨by decide, by decide, (get_tasks_sorted dbEx dbPermEx).2.2.2 (by decide) (by decide)⟩

/-- C6: the ids returned by the creates of any request sequence are pairwise
distinct (the sequence counter only grows), the create response is the
success envelope `{success:true, data:{id}}` carrying the generated id, and
that id appears in the list returned by a subsequent GET. -/
theorem create_ids_unique_and_listed (db : Db) (ops : List Op) (n : String)
    (p : Option Int) :
    ((run db ops).2).Nodup
    ∧ (createTaskHandler db n p).2 = (200, ⟨true, some (.created db.nextId), none⟩)
    ∧ db.nextId ∈ (selectTasksOrderById (createTaskHandler db n p).1).map TaskRow.id := by
  refine ⟨(run_created_pairwise ops db).imp (fun h => ne_of_lt h), rfl, ?_⟩
  refine mem_map_selectTasksOrderById.mpr ?_
  show db.nextId ∈ (db.rows ++ [({ id := db.nextId, name := n, priority := p } : TaskRow)]).map TaskRow.id
  simp

/-- C7: after deleting an id, that id is absent from the list returned by
any subsequent GET, and remains absent across any further updates and
deletes (any request sequence containing no create). -/
theorem delete_removes_id_from_lists (db : Db) (id : Int) (ops : List Op)
    (hops : noCreates ops = true) :
    id ∉ (selectTasksOrderById (deleteTaskHandler db id).1).map TaskRow.id
    ∧ id ∉ (selectTasksOrderById
        (run (deleteTaskHandler db id).1 ops).1).map TaskRow.id := by
  have hdel := deleteTasksWhereId_id_not_mem db id
  constructor
  · intro h
    exact hdel (mem_map_selectTasksOrderById.mp h)
  · intro h
    exact hdel (run_noCreates_ids_subset hops _ id (mem_map_selectTasksOrderById.mp h))

/-- C7 witness: deleting id 1 from the concrete two-row table keeps 1 out of
the list, also after a further update and delete. -/
theorem delete_removes_id_witness :
    noCreates [Op.update 2 (some "z") none, Op.delete 2] = true
    ∧ (1 : Int) ∉ (selectTasksOrderById (deleteTaskHandler dbEx 1).1).map TaskRow.id
    ∧ (1 : Int) ∉ (selectTasksOrderById
        (run (deleteTaskHandler dbEx 1).1
          [Op.update 2 (some "z") none, Op.delete 2]).1).map TaskRow.id :=
  ⟨by decide,
   (delete_removes_id_from_lists dbEx 1
      [Op.update 2 (some "z") none, Op.delete 2] (by decide)).1,
   (delete_removes_id_from_lists dbEx 1
      [Op.update 2 (some "z") none, Op.delete 2] (by decide)).2⟩

end Todolist
